import Mathlib

/-!
Verification of the Curi repository: a shallow embedding of the
TypeScript frontend (product model, chat rendering, registration
endpoint) and of the documented data-source subsystem (tiered cache,
token-bucket rate limiter, provider router, stats collector), together
with theorems settling the specification claims.

Numbers are modelled as `ℚ` (JavaScript numbers, ignoring floating
point rounding), JavaScript `Math.round` as Mathlib's `round`
(both round halves toward positive infinity), and JavaScript
truthiness of a numeric value as the value being nonzero.
-/

/-- Embedding of the `llm_analysis` object nested in `Product`
(`src/frontend/src/lib/utils.ts`). -/
structure LLMAnalysis where
  match_score : ℚ
  reasoning : String
  key_features : List String
deriving DecidableEq, Repr

/-- Embedding of the `Product` interface from
`src/frontend/src/lib/utils.ts` (lines 44-60).  Optional (`?`) fields
of the TypeScript interface become `Option`; all other fields are
required in every value, exactly as in the source. -/
structure Product where
  asin : String
  title : String
  store : String
  main_category : Option String
  average_rating : ℚ
  rating_number : ℚ
  price : Option ℚ
  similarity_score : ℚ
  insights : Option (List String)
  review_count : Option ℚ
  llm_analysis : Option LLMAnalysis
deriving DecidableEq, Repr

/-- Agreement of two products on exactly the fields that claim C1's
field list names: identifier, title, brand/store, category, rating,
rating count, price, and the LLM analysis. -/
def claimedFieldsAgree (p q : Product) : Prop :=
  p.asin = q.asin ∧ p.title = q.title ∧ p.store = q.store ∧
  p.main_category = q.main_category ∧ p.average_rating = q.average_rating ∧
  p.rating_number = q.rating_number ∧ p.price = q.price ∧
  p.llm_analysis = q.llm_analysis

instance (p q : Product) : Decidable (claimedFieldsAgree p q) := by
  unfold claimedFieldsAgree; infer_instance

/-- First concrete product used to test claim C1: all optional fields
absent, similarity score `0`. -/
def productA : Product :=
  { asin := "B001", title := "Lip Balm", store := "Curi",
    main_category := none, average_rating := 4, rating_number := 10,
    price := none, similarity_score := 0, insights := none,
    review_count := none, llm_analysis := none }

/-- Second concrete product for claim C1: identical to `productA`
except for the `similarity_score` field, which claim C1's field list
omits. -/
def productB : Product :=
  { productA with similarity_score := 1 }

/-- Embedding of the match-score rendering in `ProductCard`
(`src/frontend/src/components/chat/product-card.tsx`, lines 103-109):
`Math.min(100, Math.max(0, Math.round(match_score * 100)))`. -/
def cardMatchScorePct (s : ℚ) : ℤ :=
  min 100 (max 0 (round (s * 100)))

/-- Embedding of `getValidMatchScore` from the chat-message component
(`src/unnamed/part_005`, lines 583-590).  It returns `null` when there
is no product, no LLM analysis, or a falsy (zero) match score, and
otherwise clamps the score into `[0, 1]` via
`Math.max(0, Math.min(1, score))`. -/
def getValidMatchScore (p : Option Product) : Option ℚ :=
  match p with
  | none => none
  | some p =>
    match p.llm_analysis with
    | none => none
    | some l =>
      if l.match_score = 0 then none
      else some (max 0 (min 1 l.match_score))

/-- Embedding of the top-product badge rendering in the chat-message
component: `Math.round(topProductMatchScore * 100)` applied to the
value returned by `getValidMatchScore`. -/
def topMatchScorePct (v : ℚ) : ℤ :=
  round (v * 100)

/-- JavaScript truthy coalescing `x || y` on an optional numeric value:
`undefined` and `0` fall through to `y`. -/
def truthyOr (x : Option ℚ) (y : ℚ) : ℚ :=
  match x with
  | none => y
  | some v => if v = 0 then y else v

/-- Embedding of the effective score the chat-message component sorts
by (`src/unnamed/part_005`, lines 574-575):
`p?.llm_analysis?.match_score || p?.similarity_score || 0`. -/
def chatEffectiveScore (p : Product) : ℚ :=
  truthyOr (p.llm_analysis.map LLMAnalysis.match_score)
    (truthyOr (some p.similarity_score) 0)

/-- Modelled from the spec (claim C10's wording, for refinement
comparison only): the effective score is `llm_analysis.match_score` if
the LLM analysis is present, else `similarity_score`; the claim's
final "else 0" is unreachable because `similarity_score` is a required
field. -/
def specEffectiveScore (p : Product) : ℚ :=
  match p.llm_analysis with
  | some l => l.match_score
  | none => p.similarity_score

/-- Descending comparison on `chatEffectiveScore`: the order in which
the chat-message component sorts products (`scoreB - scoreA`
comparator). -/
def scoreGE (a b : Product) : Prop :=
  chatEffectiveScore b ≤ chatEffectiveScore a

instance : DecidableRel scoreGE := by
  unfold scoreGE; infer_instance

instance : IsTotal Product scoreGE :=
  ⟨fun a b => le_total (chatEffectiveScore b) (chatEffectiveScore a)⟩

instance : IsTrans Product scoreGE :=
  ⟨fun _ _ _ h1 h2 => le_trans h2 h1⟩

/-- Embedding of `sortedProducts` from the chat-message component
(`src/unnamed/part_005`, lines 573-578): the message's products sorted
in non-increasing order of `chatEffectiveScore`. -/
def sortedProducts (ps : List Product) : List Product :=
  List.insertionSort scoreGE ps

/-- Products actually displayed by the chat-message component: the top
product (`sorted[0]`, highlighted) followed by `sorted.slice(1, 4)`,
i.e. the first four sorted products. -/
def displayedProducts (ps : List Product) : List Product :=
  (sortedProducts ps).take 4

/-- Highlighted top product of a message: head of the sorted list. -/
def topProduct (ps : List Product) : Option Product :=
  (sortedProducts ps).head?

/-- Concrete product refuting claim C10's spec-worded ordering: its
LLM match score is present but `0` (falsy), so the code falls through
to its high similarity score. -/
def productZeroMatch : Product :=
  { productA with
      asin := "B002"
      similarity_score := 2
      llm_analysis := some { match_score := 0, reasoning := "none", key_features := [] } }

/-- Concrete product with no LLM analysis and middling similarity. -/
def productMidSim : Product :=
  { productA with asin := "B003", similarity_score := 1 }

/-- JavaScript falsiness of an optional string field of a parsed JSON
body: the field is absent (`undefined`) or the empty string. -/
def jsFalsyStr (o : Option String) : Bool :=
  match o with
  | none => true
  | some s => s.isEmpty

/-- Parsed JSON body of a registration request
(`src/unnamed/part_001`): each of `name`, `email`, `password` may be
absent. -/
structure RegRequest where
  name : Option String
  email : Option String
  password : Option String
deriving DecidableEq, Repr

/-- Embedding of a row of the Prisma `User` table as the registration
endpoint uses it: `create` stores `name`, `email` and the password
hash; `id` and `createdAt` are generated, `image` starts absent. -/
structure DBUser where
  id : String
  name : String
  email : String
  password : String
  image : Option String
  createdAt : Nat
deriving DecidableEq, Repr

/-- Embedding of the `select` projection of the created user returned
by the endpoint: `id`, `name`, `email`, `image`, `createdAt` — and no
password field. -/
structure UserView where
  id : String
  name : String
  email : String
  image : Option String
  createdAt : Nat
deriving DecidableEq, Repr

/-- Body of the endpoint's JSON response: either an error message or a
success message together with the selected user view. -/
inductive RegBody where
  | error (msg : String)
  | created (msg : String) (user : UserView)
deriving DecidableEq, Repr

/-- HTTP response of the registration endpoint: status plus body. -/
structure RegResponse where
  status : Nat
  body : RegBody
deriving DecidableEq, Repr

/-- Embedding of the `POST` handler of the registration endpoint
(`src/unnamed/part_001`, lines 5-87).  `hash` abstracts
`bcrypt.hash(·, 12)`, `newId` the Prisma-generated id, and `now` the
generated `createdAt` timestamp; `db` is the `User` table as a list of
rows, with `prisma.user.findUnique({where: {email}})` embedded as a
first-match lookup.  Returns the response and the table afterwards. -/
def POST (hash : String → String) (newId : String) (now : Nat)
    (db : List DBUser) (req : RegRequest) : RegResponse × List DBUser :=
  if jsFalsyStr req.name || jsFalsyStr req.email || jsFalsyStr req.password then
    (⟨400, .error ("Missing required fields")⟩, db)
  else
    let n := req.name.getD ("")
    let e := req.email.getD ("")
    let pw := req.password.getD ("")
    if pw.length < 6 then
      (⟨400, .error ("Password must be at least 6 characters long")⟩, db)
    else if (db.find? (fun u => u.email == e)).isSome then
      (⟨409, .error ("User with this email already exists")⟩, db)
    else
      let user : DBUser :=
        { id := newId, name := n, email := e, password := hash pw,
          image := none, createdAt := now }
      (⟨201, .created ("User created successfully")
          ⟨user.id, user.name, user.email, user.image, user.createdAt⟩⟩,
        db ++ [user])

/-- Modelled from the spec: the implementation of `StatsCollector`
(`data_sources.py`) is absent from the source; the spec defines the
derived cache hit rate as hits divided by total requests, and 0 when
the total is 0. -/
def cacheHitRate (hits total : Nat) : ℚ :=
  if total = 0 then 0 else (hits : ℚ) / (total : ℚ)

/-- Rounding of a rate to three decimal places, used to compare the
hit rate with the spec's `0.818` figure. -/
def roundTo3 (q : ℚ) : ℚ :=
  (round (q * 1000) : ℚ) / 1000

/-- Modelled from the spec: configuration of the absent `RateLimiter`
(`data_sources.py`) — a token bucket with burst capacity `cap` and a
refill `rate` in tokens per unit time. -/
structure RateLimiter where
  cap : ℚ
  rate : ℚ
deriving DecidableEq, Repr

/-- Modelled from the spec: mutable state of the token bucket — the
`RateBudget` counter of available tokens and the last-refill
timestamp. -/
structure RLState where
  tokens : ℚ
  last : ℚ
deriving DecidableEq, Repr

/-- Modelled from the spec: wall-clock token refill at time `t` —
elapsed time times the rate, capped at the burst capacity. -/
def RateLimiter.refill (rl : RateLimiter) (s : RLState) (t : ℚ) : ℚ :=
  min rl.cap (s.tokens + rl.rate * (t - s.last))

/-- Modelled from the spec: `tryAcquire` at time `t` — refill from
elapsed wall-clock time, then admit the request if and only if at
least one token is available, consuming one token on admission. -/
def RateLimiter.acquire (rl : RateLimiter) (s : RLState) (t : ℚ) :
    Bool × RLState :=
  let tk := rl.refill s t
  if 1 ≤ tk then (true, ⟨tk - 1, t⟩) else (false, ⟨tk, t⟩)

/-- Modelled from the spec: a sequence of acquire attempts at the
given times, returning the number of admitted calls and the final
limiter state. -/
def RateLimiter.run (rl : RateLimiter) (s : RLState) : List ℚ → Nat × RLState
  | [] => (0, s)
  | t :: ts =>
    let r := rl.acquire s t
    let rest := rl.run r.2 ts
    ((if r.1 then 1 else 0) + rest.1, rest.2)

/-- Modelled from the spec: the `CacheEntry` record of the absent
cache layer — value (a serialized product list), insertion time and
TTL. -/
structure CacheEntry where
  value : List Product
  insertedAt : ℚ
  ttl : ℚ
deriving DecidableEq, Repr

/-- Modelled from the spec: an entry is fresh at time `now` when its
TTL has not yet expired; expired entries are treated as misses. -/
def CacheEntry.fresh (e : CacheEntry) (now : ℚ) : Bool :=
  now ≤ e.insertedAt + e.ttl

/-- Modelled from the spec: one cache tier as an association list from
keys to entries; insertion prepends, lookup takes the first match, so
a later write to the same key shadows earlier ones. -/
def Tier := List (String × CacheEntry)

/-- Lookup of a fresh (unexpired) entry in one tier. -/
def lookupFresh (tier : Tier) (k : String) (now : ℚ) : Option CacheEntry :=
  match List.lookup k tier with
  | none => none
  | some e => if e.fresh now then some e else none

/-- Modelled from the spec: the three-level `TieredCache` of the
absent cache layer — fast in-memory tier, persistent tier, file
backup tier. -/
structure TieredCache where
  fast : Tier
  persistent : Tier
  backup : Tier

/-- Names of the three cache tiers, in latency order. -/
inductive TierName where
  | fast
  | persistent
  | backup
deriving DecidableEq, Repr

/-- Modelled from the spec: `set(key, value, ttl)` writes the entry to
all three tiers. -/
def TieredCache.set (c : TieredCache) (k : String) (v : List Product)
    (ttl now : ℚ) : TieredCache :=
  let e : CacheEntry := ⟨v, now, ttl⟩
  ⟨(k, e) :: c.fast, (k, e) :: c.persistent, (k, e) :: c.backup⟩

/-- Modelled from the spec: `get(key)` checks the fast tier, then the
persistent tier, then the file tier, in that order; a hit in a slower
tier is promoted by writing the entry into all faster tiers.  Returns
the value found (with the tier that served it) and the cache
afterwards. -/
def TieredCache.get (c : TieredCache) (k : String) (now : ℚ) :
    Option (List Product × TierName) × TieredCache :=
  match lookupFresh c.fast k now with
  | some e => (some (e.value, .fast), c)
  | none =>
    match lookupFresh c.persistent k now with
    | some e => (some (e.value, .persistent), { c with fast := (k, e) :: c.fast })
    | none =>
      match lookupFresh c.backup k now with
      | some e =>
        (some (e.value, .backup),
          { c with fast := (k, e) :: c.fast, persistent := (k, e) :: c.persistent })
      | none => (none, c)

/-- Modelled from the spec: lookup of a last-known-good value in any
tier, ignoring TTL expiry (used when every remote provider fails). -/
def TieredCache.staleLookup (c : TieredCache) (k : String) : Option (List Product) :=
  match List.lookup k c.fast with
  | some e => some e.value
  | none =>
    match List.lookup k c.persistent with
    | some e => some e.value
    | none =>
      match List.lookup k c.backup with
      | some e => some e.value
      | none => none

/-- Modelled from the spec: one remote provider, treated as an opaque
service that accepts a query and returns a product list or a failure
signal (auth error, rate limit, timeout — all collapsed to `none`). -/
def Provider := String → Option (List Product)

/-- Modelled from the spec: the per-provider counters of
`SourceCallStats` — calls made, successes, failures. -/
structure ProviderStats where
  calls : Nat
  successes : Nat
  failures : Nat
deriving DecidableEq, Repr

/-- Counter update for a successful provider attempt. -/
def ProviderStats.bumpSuccess (st : ProviderStats) : ProviderStats :=
  ⟨st.calls + 1, st.successes + 1, st.failures⟩

/-- Counter update for a failed provider attempt. -/
def ProviderStats.bumpFailure (st : ProviderStats) : ProviderStats :=
  ⟨st.calls + 1, st.successes, st.failures + 1⟩

/-- Modelled from the spec: attempt each configured provider in
priority order, stopping at the first success; every attempt
increments that provider's counters according to its outcome, and
providers after the first success are not attempted. -/
def tryProviders : List (Provider × ProviderStats) → String →
    Option (List Product) × List (Provider × ProviderStats)
  | [], _ => (none, [])
  | (p, st) :: rest, q =>
    match p q with
    | some v => (some v, (p, st.bumpSuccess) :: rest)
    | none =>
      let r := tryProviders rest q
      (r.1, (p, st.bumpFailure) :: r.2)

/-- Number of providers attempted on query `q`: the failing ones up to
and including the first success, or all of them when all fail. -/
def attemptedCount : List (Provider × ProviderStats) → String → Nat
  | [], _ => 0
  | (p, _) :: rest, q =>
    match p q with
    | some _ => 1
    | none => 1 + attemptedCount rest q

/-- Modelled from the spec: the `DataSourceRouter` with its cache, its
prioritized provider list (each paired with its `SourceCallStats`
counters), the static fallback dataset, and the global cache-hit and
total-request counters. -/
structure DataSourceRouter where
  cache : TieredCache
  providers : List (Provider × ProviderStats)
  fallback : List Product
  cacheHits : Nat
  totalRequests : Nat

/-- Modelled from the spec: `search(query)` — check the tiered cache
first; on a hit return the cached value (no provider attempted) and
count a cache hit; on a miss attempt the providers in order, caching
and returning the first success; when every provider fails, return the
last-known-good cached value even if stale, or else the static
fallback dataset.  Always returns a product list (never raises). -/
def DataSourceRouter.search (r : DataSourceRouter) (q : String)
    (ttl now : ℚ) : List Product × DataSourceRouter :=
  let g := r.cache.get q now
  match g.1 with
  | some hit =>
    (hit.1, { r with cache := g.2, cacheHits := r.cacheHits + 1,
                     totalRequests := r.totalRequests + 1 })
  | none =>
    let t := tryProviders r.providers q
    match t.1 with
    | some v =>
      (v, { r with cache := g.2.set q v ttl now, providers := t.2,
                   totalRequests := r.totalRequests + 1 })
    | none =>
      match g.2.staleLookup q with
      | some v =>
        (v, { r with cache := g.2, providers := t.2,
                     totalRequests := r.totalRequests + 1 })
      | none =>
        (r.fallback, { r with cache := g.2, providers := t.2,
                              totalRequests := r.totalRequests + 1 })

/-- Concrete product whose LLM match score lies above the interval
`[0, 1]`, exercising the clamping paths. -/
def productOverScore : Product :=
  { productA with
      asin := "B004"
      llm_analysis := some { match_score := 2, reasoning := "over", key_features := [] } }

/-- Concrete stand-in for `bcrypt.hash(·, 12)` used in witnesses. -/
def hash0 : String → String := fun s => s ++ "#hash"

/-- Concrete well-formed registration request used in witnesses. -/
def req0 : RegRequest :=
  ⟨some ("Ada"), some ("ada@curi.io"), some ("secret1")⟩

/-- Empty tiered cache. -/
def emptyCache : TieredCache := ⟨[], [], []⟩

/-- Tiered cache holding one fresh entry in the backup tier only. -/
def backupOnlyCache : TieredCache :=
  ⟨[], [], [("q", ⟨[productA], 0, 1⟩)]⟩

/-- Provider that always fails. -/
def failProvider : Provider := fun _ => none

/-- Provider that always succeeds with a fixed product list. -/
def okProvider : Provider := fun _ => some [productB]

/-- Router whose single provider always fails, with static fallback
`[productA]` and an empty cache. -/
def router1 : DataSourceRouter :=
  ⟨emptyCache, [(failProvider, ⟨0, 0, 0⟩)], [productA], 0, 0⟩

/-- Router whose primary provider fails and whose secondary provider
succeeds, with an empty cache. -/
def router2 : DataSourceRouter :=
  ⟨emptyCache, [(failProvider, ⟨0, 0, 0⟩), (okProvider, ⟨0, 0, 0⟩)], [], 0, 0⟩

/-- Router holding a freshly written cache entry, used to witness the
cache-hit invariant. -/
def router1Cached : DataSourceRouter :=
  ⟨emptyCache.set ("q") [productB] 1 0, [(failProvider, ⟨0, 0, 0⟩)], [productA], 0, 0⟩

/-- Concrete limiter used in witnesses: burst capacity 1, refill
rate 0. -/
def rl0 : RateLimiter := ⟨1, 0⟩

/-- Concrete limiter state used in witnesses: one token available,
last refill at time 0. -/
def st0 : RLState := ⟨1, 0⟩

/-! ## Theorems -/

/-- C1 (counterexample): the `Product` record does not consist only of
the fields claim C1 lists — `productA` and `productB` agree on every
listed field (identifier, title, store, category, rating, rating
count, price, LLM analysis) yet are different products, because the
record also carries a required `similarity_score` field. -/
theorem product_record_fields_counterexample :
    claimedFieldsAgree productA productB ∧ productA ≠ productB := by
  decide

/-- C1 (amended): a `Product` value consists of the listed fields
together with a required similarity score and optional insights and
review count: two products agreeing on all of these are equal, every
product carries the required fields, and the category, price, LLM
analysis, insights, and review count may all be absent at once. -/
theorem product_record_fields :
    (∀ p q : Product, claimedFieldsAgree p q →
      p.similarity_score = q.similarity_score → p.insights = q.insights →
      p.review_count = q.review_count → p = q) ∧
    (∃ p : Product, p.main_category = none ∧ p.price = none ∧
      p.llm_analysis = none ∧ p.insights = none ∧ p.review_count = none) := by
  constructor
  · intro p q h hs hi hr
    obtain ⟨h1, h2, h3, h4, h5, h6, h7, h8⟩ := h
    cases p
    cases q
    simp_all
  · exact ⟨productA, rfl, rfl, rfl, rfl, rfl⟩

/-- C1 (witness): the amended field-determination applied at the
concrete product `productA`. -/
theorem product_record_fields_witness :
    claimedFieldsAgree productA productA ∧ productA = productA :=
  ⟨by decide, product_record_fields.1 productA productA (by decide) rfl rfl rfl⟩

/-- C2: the derived cache hit rate is hits divided by total requests
and `0` when the total is `0`; with 45 hits out of 55 total requests
it equals `9/11`, which rounds to `0.818` at three decimal places. -/
theorem cache_hit_rate_spec :
    (∀ h : Nat, cacheHitRate h 0 = 0) ∧
    (∀ h t : Nat, t ≠ 0 → cacheHitRate h t = (h : ℚ) / (t : ℚ)) ∧
    cacheHitRate 45 55 = 9 / 11 ∧
    roundTo3 (cacheHitRate 45 55) = 818 / 1000 := by
  refine ⟨fun h => by simp [cacheHitRate], fun h t ht => by simp [cacheHitRate, ht], ?_, ?_⟩
  · norm_num [cacheHitRate]
  · norm_num [roundTo3, cacheHitRate, round_eq]

/-- C2 (witness): the hit-rate formula applied at 45 hits out of 55
total requests. -/
theorem cache_hit_rate_witness :
    (55 : Nat) ≠ 0 ∧ cacheHitRate 45 55 = (45 : ℚ) / (55 : ℚ) :=
  ⟨by decide, cache_hit_rate_spec.2.1 45 55 (by decide)⟩

/-- C9: both renderings of the match-score percentage are clamped to
`[0, 100]`: the `ProductCard` formula
`min(100, max(0, round(score·100)))` for every score, and the
top-product badge `round(v·100)` for every value `v` produced by
`getValidMatchScore` (which clamps into `[0, 1]` first) — even when
the underlying `llm_analysis.match_score` lies outside `[0, 1]`. -/
theorem match_score_pct_clamped :
    (∀ s : ℚ, 0 ≤ cardMatchScorePct s ∧ cardMatchScorePct s ≤ 100) ∧
    (∀ (p : Product) (v : ℚ), getValidMatchScore (some p) = some v →
      0 ≤ topMatchScorePct v ∧ topMatchScorePct v ≤ 100) := by
  constructor
  · intro s
    unfold cardMatchScorePct
    exact ⟨le_min (by norm_num) (le_max_left 0 _), min_le_left _ _⟩
  · intro p v hv
    have hv01 : 0 ≤ v ∧ v ≤ 1 := by
      unfold getValidMatchScore at hv
      rcases hllm : p.llm_analysis with _ | l
      · simp [hllm] at hv
      · simp only [hllm] at hv
        by_cases h0 : l.match_score = 0
        · simp [h0] at hv
        · simp only [h0, if_false] at hv
          rw [Option.some_inj] at hv
          subst hv
          refine ⟨le_max_left 0 _, max_le (by norm_num) (min_le_left 1 _)⟩
    obtain ⟨hv0, hv1⟩ := hv01
    unfold topMatchScorePct
    rw [round_eq]
    constructor
    · exact Int.le_floor.mpr (by push_cast; nlinarith)
    · have : (⌊v * 100 + 1 / 2⌋ : ℤ) < 101 := by
        rw [Int.floor_lt]
        push_cast
        nlinarith
      omega

/-- C9 (witness): the badge clamping applied at a concrete product
whose raw LLM match score is `2`, above the valid interval. -/
theorem match_score_pct_clamped_witness :
    getValidMatchScore (some productOverScore) = some 1 ∧
    (0 ≤ topMatchScorePct 1 ∧ topMatchScorePct 1 ≤ 100) :=
  ⟨by decide, match_score_pct_clamped.2 productOverScore 1 (by decide)⟩

/-- C10 (counterexample): the chat UI does not order products by the
claim's effective score (match score if *present*, else similarity
score).  `productZeroMatch` has a present-but-zero LLM match score and
similarity `2`, so the code's truthy coalescing sorts it first, yet
its claimed effective score `0` is strictly below `productMidSim`'s
`1`: the displayed list is strictly increasing in the claimed score,
and the highlighted top product does not have a maximal claimed
score. -/
theorem chat_products_order_counterexample :
    displayedProducts [productZeroMatch, productMidSim] =
      [productZeroMatch, productMidSim] ∧
    topProduct [productZeroMatch, productMidSim] = some productZeroMatch ∧
    specEffectiveScore productZeroMatch < specEffectiveScore productMidSim ∧
    ¬ List.Sorted (fun a b => specEffectiveScore b ≤ specEffectiveScore a)
        (displayedProducts [productZeroMatch, productMidSim]) := by
  decide

/-- C10 (amended): products are displayed in non-increasing order of
the code's effective score — `llm_analysis.match_score` if present and
nonzero, else `similarity_score` if nonzero, else 0 — the highlighted
top product has a maximal such score among the message's products, and
at most 4 products are displayed. -/
theorem chat_products_order (ps : List Product) :
    List.Sorted scoreGE (displayedProducts ps) ∧
    (displayedProducts ps).length ≤ 4 ∧
    ∀ t, topProduct ps = some t →
      ∀ p ∈ ps, chatEffectiveScore p ≤ chatEffectiveScore t := by
  refine ⟨?_, ?_, ?_⟩
  · have hs : List.Sorted scoreGE (sortedProducts ps) :=
      List.sorted_insertionSort scoreGE ps
    exact List.Pairwise.sublist (List.take_sublist 4 _) hs
  · exact List.length_take_le 4 _
  · intro t ht p hp
    have hs : List.Sorted scoreGE (sortedProducts ps) :=
      List.sorted_insertionSort scoreGE ps
    have hmem : p ∈ sortedProducts ps := by
      unfold sortedProducts
      rw [List.mem_insertionSort]
      exact hp
    unfold topProduct at ht
    rcases hsp : sortedProducts ps with _ | ⟨a, l⟩
    · rw [hsp] at ht
      cases ht
    · rw [hsp] at ht
      simp only [List.head?_cons, Option.some_inj] at ht
      subst ht
      rw [hsp] at hmem hs
      rcases List.mem_cons.mp hmem with h | h
      · subst h
        exact le_refl _
      · exact List.rel_of_sorted_cons hs p h

/-- C10 (witness): the ordering theorem applied to a singleton message,
whose top product is the product itself. -/
theorem chat_products_order_witness :
    topProduct [productMidSim] = some productMidSim ∧
    chatEffectiveScore productMidSim ≤ chatEffectiveScore productMidSim :=
  ⟨by decide,
    (chat_products_order [productMidSim]).2.2 productMidSim (by decide)
      productMidSim (by decide)⟩

/-- C3: the registration endpoint returns 400 when a field is missing
(falsy), 400 when the password is shorter than 6 characters, 409 when
a user with the email already exists, and otherwise 201 with a user
view made of id, name, email, image and createdAt; the stored table is
extended only on the 201 path, and the response is independent of the
hash function, hence never contains the stored password hash. -/
theorem registration_post_spec (hash : String → String) (newId : String)
    (now : Nat) (db : List DBUser) (req : RegRequest) :
    ((jsFalsyStr req.name || jsFalsyStr req.email || jsFalsyStr req.password) = true →
      (POST hash newId now db req).1.status = 400) ∧
    ((jsFalsyStr req.name || jsFalsyStr req.email || jsFalsyStr req.password) = false →
      (req.password.getD ("")).length < 6 →
      (POST hash newId now db req).1.status = 400) ∧
    ((jsFalsyStr req.name || jsFalsyStr req.email || jsFalsyStr req.password) = false →
      ¬ (req.password.getD ("")).length < 6 →
      (db.find? (fun u => u.email == req.email.getD (""))).isSome = true →
      (POST hash newId now db req).1.status = 409) ∧
    ((jsFalsyStr req.name || jsFalsyStr req.email || jsFalsyStr req.password) = false →
      ¬ (req.password.getD ("")).length < 6 →
      (db.find? (fun u => u.email == req.email.getD (""))).isSome = false →
      (POST hash newId now db req).1 =
        ⟨201, .created ("User created successfully")
          ⟨newId, req.name.getD (""), req.email.getD (""), none, now⟩⟩ ∧
      (POST hash newId now db req).2 =
        db ++ [⟨newId, req.name.getD (""), req.email.getD (""),
                hash (req.password.getD ("")), none, now⟩]) ∧
    ((POST hash newId now db req).1.status ≠ 201 →
      (POST hash newId now db req).2 = db) ∧
    (∀ hash2 : String → String,
      (POST hash2 newId now db req).1 = (POST hash newId now db req).1) := by
  refine ⟨?_, ?_, ?_, ?_, ?_, ?_⟩
  · intro h
    simp [POST, h]
  · intro h1 h2
    simp [POST, h1, h2]
  · intro h1 h2 h3
    simp [POST, h1, h2, h3]
  · intro h1 h2 h3
    constructor <;> simp [POST, h1, h2, h3]
  · intro hne
    cases hF : (jsFalsyStr req.name || jsFalsyStr req.email || jsFalsyStr req.password)
    · by_cases h6 : (req.password.getD ("")).length < 6
      · simp [POST, hF, h6]
      · cases hEx : (db.find? (fun u => u.email == req.email.getD (""))).isSome
        · simp [POST, hF, h6, hEx] at hne
        · simp [POST, hF, h6, hEx]
    · simp [POST, hF]
  · intro hash2
    cases hF : (jsFalsyStr req.name || jsFalsyStr req.email || jsFalsyStr req.password)
    · by_cases h6 : (req.password.getD ("")).length < 6
      · simp [POST, hF, h6]
      · cases hEx : (db.find? (fun u => u.email == req.email.getD (""))).isSome
        · simp [POST, hF, h6, hEx]
        · simp [POST, hF, h6, hEx]
    · simp [POST, hF]

/-- C3 (witness): the 201 path of the endpoint applied to a concrete
valid request against an empty table. -/
theorem registration_post_witness :
    (jsFalsyStr req0.name || jsFalsyStr req0.email || jsFalsyStr req0.password) = false ∧
    (POST hash0 ("u1") 7 [] req0).1 =
      ⟨201, .created ("User created successfully")
        ⟨"u1", "Ada", "ada@curi.io", none, 7⟩⟩ :=
  ⟨by decide,
    ((registration_post_spec hash0 ("u1") 7 [] req0).2.2.2.1 (by decide) (by decide)
      (by decide)).1⟩

/-- Acquire always stamps the current time as the new last-refill
time. -/
theorem acquire_last (rl : RateLimiter) (s : RLState) (t : ℚ) :
    (rl.acquire s t).2.last = t := by
  by_cases hc : 1 ≤ rl.refill s t <;> simp [RateLimiter.acquire, hc]

/-- Token count after an admitted acquire: the refilled amount minus
the consumed token. -/
theorem acquire_true_tokens (rl : RateLimiter) (s : RLState) (t : ℚ)
    (h : (rl.acquire s t).1 = true) :
    (rl.acquire s t).2.tokens = rl.refill s t - 1 := by
  by_cases hc : 1 ≤ rl.refill s t <;> simp [RateLimiter.acquire, hc] at h ⊢

/-- Token count after a rejected acquire: the refilled amount. -/
theorem acquire_false_tokens (rl : RateLimiter) (s : RLState) (t : ℚ)
    (h : (rl.acquire s t).1 = false) :
    (rl.acquire s t).2.tokens = rl.refill s t := by
  by_cases hc : 1 ≤ rl.refill s t <;> simp [RateLimiter.acquire, hc] at h ⊢

/-- Available tokens never exceed the burst capacity after any
acquire. -/
theorem acquire_tokens_le_cap (rl : RateLimiter) (s : RLState) (t : ℚ) :
    (rl.acquire s t).2.tokens ≤ rl.cap := by
  have hmin : rl.refill s t ≤ rl.cap := by
    unfold RateLimiter.refill
    exact min_le_left _ _
  by_cases hc : 1 ≤ rl.refill s t
  · simp [RateLimiter.acquire, hc]
    linarith
  · simp [RateLimiter.acquire, hc]
    linarith

/-- Tokens stay nonnegative across an acquire performed at or after
the last refill time. -/
theorem acquire_tokens_nonneg (rl : RateLimiter) (s : RLState) (t : ℚ)
    (hcap : 0 ≤ rl.cap) (hrate : 0 ≤ rl.rate)
    (hs : 0 ≤ s.tokens) (ht : s.last ≤ t) :
    0 ≤ (rl.acquire s t).2.tokens := by
  have hmin : 0 ≤ rl.refill s t := by
    unfold RateLimiter.refill
    exact le_min hcap
      (add_nonneg hs (mul_nonneg hrate (sub_nonneg.mpr ht)))
  by_cases hc : 1 ≤ rl.refill s t
  · simp [RateLimiter.acquire, hc]
  · simp [RateLimiter.acquire, hc]
    linarith

/-- Last-refill time after a run: either untouched or one of the
event times. -/
theorem run_last_mem (rl : RateLimiter) :
    ∀ (ts : List ℚ) (s : RLState),
      (rl.run s ts).2.last = s.last ∨ (rl.run s ts).2.last ∈ ts
  | [], _ => Or.inl rfl
  | t :: ts, s => by
    simp only [RateLimiter.run]
    rcases run_last_mem rl ts (rl.acquire s t).2 with h | h
    · rw [acquire_last rl s t] at h
      rw [h]
      exact Or.inr (List.mem_cons_self t ts)
    · exact Or.inr (List.mem_cons_of_mem t h)

/-- Available tokens never exceed the burst capacity across a run. -/
theorem run_tokens_le_cap (rl : RateLimiter) :
    ∀ (ts : List ℚ) (s : RLState), s.tokens ≤ rl.cap →
      (rl.run s ts).2.tokens ≤ rl.cap
  | [], _, h => by simpa [RateLimiter.run] using h
  | t :: ts, s, _ => by
    simp only [RateLimiter.run]
    exact run_tokens_le_cap rl ts (rl.acquire s t).2 (acquire_tokens_le_cap rl s t)

/-- Tokens stay nonnegative across a run over nondecreasing event
times that start no earlier than the last refill. -/
theorem run_tokens_nonneg (rl : RateLimiter) (hcap : 0 ≤ rl.cap) (hrate : 0 ≤ rl.rate) :
    ∀ (ts : List ℚ) (s : RLState), 0 ≤ s.tokens →
      (∀ u ∈ ts, s.last ≤ u) → List.Pairwise (fun a b => a ≤ b) ts →
      0 ≤ (rl.run s ts).2.tokens
  | [], _, h0, _, _ => by simpa [RateLimiter.run] using h0
  | t :: ts, s, h0, hl, hp => by
    simp only [RateLimiter.run]
    have h1 : 0 ≤ (rl.acquire s t).2.tokens :=
      acquire_tokens_nonneg rl s t hcap hrate h0 (hl t (List.mem_cons_self t ts))
    have hl' : ∀ u ∈ ts, (rl.acquire s t).2.last ≤ u := by
      simp only [acquire_last rl s t]
      exact (List.pairwise_cons.mp hp).1
    exact run_tokens_nonneg rl hcap hrate ts (rl.acquire s t).2 h1 hl'
      (List.pairwise_cons.mp hp).2

/-- Token-bucket potential: over any run, admitted calls plus leftover
tokens are bounded by the initial tokens plus the refill accumulated
between the initial and final refill timestamps. -/
theorem run_potential (rl : RateLimiter) :
    ∀ (ts : List ℚ) (s : RLState),
      (((rl.run s ts).1 : ℚ) + (rl.run s ts).2.tokens ≤
        s.tokens + rl.rate * ((rl.run s ts).2.last - s.last))
  | [], s => by simp [RateLimiter.run]
  | t :: ts, s => by
    simp only [RateLimiter.run]
    have ih := run_potential rl ts (rl.acquire s t).2
    rw [acquire_last rl s t] at ih
    have hrefill : rl.refill s t ≤ s.tokens + rl.rate * (t - s.last) := by
      unfold RateLimiter.refill
      exact min_le_right _ _
    have hr : rl.rate * (t - s.last) +
        rl.rate * ((rl.run (rl.acquire s t).2 ts).2.last - t) =
        rl.rate * ((rl.run (rl.acquire s t).2 ts).2.last - s.last) := by
      ring
    cases hb : (rl.acquire s t).1 with
    | false =>
      have htk := acquire_false_tokens rl s t hb
      simp only [Bool.false_eq_true, if_false]
      push_cast
      linarith
    | true =>
      have htk := acquire_true_tokens rl s t hb
      simp only [hb, if_true]
      push_cast
      linarith

/-- C4: for every sequence of acquire calls at nondecreasing times
lying in a rolling window `[T, T + W]`, starting from a state with at
most the burst capacity of tokens, the number of admitted calls never
exceeds the configured refill rate times the window length plus the
burst capacity, and the count of available tokens never exceeds (and
never drops below zero of) the configured burst capacity — applied to
every prefix, the final-state bound makes tokens never exceed the
capacity throughout. -/
theorem rate_limiter_bounds (rl : RateLimiter) (s : RLState) (ts : List ℚ)
    (T W : ℚ) (hcap : 0 ≤ rl.cap) (hrate : 0 ≤ rl.rate) (hW : 0 ≤ W)
    (htok0 : 0 ≤ s.tokens) (htokc : s.tokens ≤ rl.cap)
    (hlast : ∀ u ∈ ts, s.last ≤ u)
    (hsort : List.Pairwise (fun a b => a ≤ b) ts)
    (hwin : ∀ u ∈ ts, T ≤ u ∧ u ≤ T + W) :
    (((rl.run s ts).1 : ℚ) ≤ rl.rate * W + rl.cap) ∧
    (rl.run s ts).2.tokens ≤ rl.cap ∧ 0 ≤ (rl.run s ts).2.tokens := by
  refine ⟨?_, run_tokens_le_cap rl ts s htokc,
    run_tokens_nonneg rl hcap hrate ts s htok0 hlast hsort⟩
  cases ts with
  | nil =>
    simp only [RateLimiter.run, Nat.cast_zero]
    exact add_nonneg (mul_nonneg hrate hW) hcap
  | cons t ts =>
    simp only [RateLimiter.run]
    have ih := run_potential rl ts (rl.acquire s t).2
    rw [acquire_last rl s t] at ih
    have hnn : 0 ≤ (rl.run (rl.acquire s t).2 ts).2.tokens := by
      refine run_tokens_nonneg rl hcap hrate ts (rl.acquire s t).2 ?_ ?_
        (List.pairwise_cons.mp hsort).2
      · exact acquire_tokens_nonneg rl s t hcap hrate htok0
          (hlast t (List.mem_cons_self t ts))
      · simp only [acquire_last rl s t]
        exact (List.pairwise_cons.mp hsort).1
    have hfinlast : (rl.run (rl.acquire s t).2 ts).2.last ≤ T + W := by
      rcases run_last_mem rl ts (rl.acquire s t).2 with h | h
      · rw [acquire_last rl s t] at h
        rw [h]
        exact (hwin t (List.mem_cons_self t ts)).2
      · exact (hwin _ (List.mem_cons_of_mem t h)).2
    have ht_lb : T ≤ t := (hwin t (List.mem_cons_self t ts)).1
    have hrefill_cap : rl.refill s t ≤ rl.cap := by
      unfold RateLimiter.refill
      exact min_le_left _ _
    have hmul : rl.rate * ((rl.run (rl.acquire s t).2 ts).2.last - t) ≤ rl.rate * W :=
      mul_le_mul_of_nonneg_left (by linarith) hrate
    cases hb : (rl.acquire s t).1 with
    | false =>
      have htk := acquire_false_tokens rl s t hb
      simp only [Bool.false_eq_true, if_false]
      push_cast
      linarith
    | true =>
      have htk := acquire_true_tokens rl s t hb
      simp only [hb, if_true]
      push_cast
      linarith

/-- C4 (witness): the bounds applied to a single admitted call on a
limiter with capacity 1 and rate 0, over the window `[0, 0]`. -/
theorem rate_limiter_bounds_witness :
    (0 : ℚ) ≤ rl0.cap ∧
    ((((rl0.run st0 [0]).1 : ℚ) ≤ rl0.rate * 0 + rl0.cap) ∧
      (rl0.run st0 [0]).2.tokens ≤ rl0.cap ∧ 0 ≤ (rl0.run st0 [0]).2.tokens) :=
  ⟨by norm_num [rl0],
    rate_limiter_bounds rl0 st0 [0] 0 0 (by norm_num [rl0]) (by norm_num [rl0])
      le_rfl (by norm_num [st0]) (by norm_num [rl0, st0])
      (by simp [st0]) (by simp) (by simp)⟩

/-- Value found by `lookupFresh` is fresh. -/
theorem lookupFresh_fresh {tier : Tier} {k : String} {now : ℚ} {e : CacheEntry}
    (h : lookupFresh tier k now = some e) : e.fresh now = true := by
  unfold lookupFresh at h
  rcases hl : List.lookup k tier with _ | e2
  · rw [hl] at h
    cases h
  · rw [hl] at h
    by_cases hf : e2.fresh now
    · simp only [hf, if_true] at h
      rw [Option.some_inj] at h
      rw [← h]
      exact hf
    · simp [hf] at h

/-- Lookup of a freshly inserted entry at the head of a tier. -/
theorem lookupFresh_cons_self (e : CacheEntry) (tier : Tier) (k : String) (now : ℚ)
    (hf : e.fresh now = true) :
    lookupFresh ((k, e) :: tier) k now = some e := by
  simp [lookupFresh, List.lookup, hf]

/-- Read path on a fast-tier hit: value served from the fast tier and
the cache left unchanged. -/
theorem get_fast_hit (c : TieredCache) (k : String) (now : ℚ) (e : CacheEntry)
    (h : lookupFresh c.fast k now = some e) :
    c.get k now = (some (e.value, TierName.fast), c) := by
  simp [TieredCache.get, h]

/-- Read path on a persistent-tier hit: value served from the
persistent tier and the entry promoted into the fast tier. -/
theorem get_persistent_hit (c : TieredCache) (k : String) (now : ℚ) (e : CacheEntry)
    (h1 : lookupFresh c.fast k now = none)
    (h2 : lookupFresh c.persistent k now = some e) :
    c.get k now = (some (e.value, TierName.persistent),
      { c with fast := (k, e) :: c.fast }) := by
  simp [TieredCache.get, h1, h2]

/-- Read path on a backup-tier hit: value served from the backup tier
and the entry promoted into the fast and persistent tiers. -/
theorem get_backup_hit (c : TieredCache) (k : String) (now : ℚ) (e : CacheEntry)
    (h1 : lookupFresh c.fast k now = none)
    (h2 : lookupFresh c.persistent k now = none)
    (h3 : lookupFresh c.backup k now = some e) :
    c.get k now = (some (e.value, TierName.backup),
      { c with fast := (k, e) :: c.fast, persistent := (k, e) :: c.persistent }) := by
  simp [TieredCache.get, h1, h2, h3]

/-- Read path on an all-miss: no value and the cache unchanged. -/
theorem get_miss (c : TieredCache) (k : String) (now : ℚ)
    (h1 : lookupFresh c.fast k now = none)
    (h2 : lookupFresh c.persistent k now = none)
    (h3 : lookupFresh c.backup k now = none) :
    c.get k now = (none, c) := by
  simp [TieredCache.get, h1, h2, h3]

/-- C5: a value written through `set` is returned unchanged by a `get`
of the same key performed before the TTL expires, served from the fast
tier; a router search over that cache returns the written value with
its provider list (and every per-provider counter) untouched — no
remote provider call is made in serving the hit. -/
theorem cache_set_get_roundtrip (c : TieredCache) (r : DataSourceRouter)
    (k : String) (v : List Product) (ttl t0 t ttl2 : ℚ)
    (_hsub : t0 ≤ t) (hfresh : t ≤ t0 + ttl)
    (hc : r.cache = c.set k v ttl t0) :
    ((c.set k v ttl t0).get k t).1 = some (v, TierName.fast) ∧
    (r.search k ttl2 t).1 = v ∧
    (r.search k ttl2 t).2.providers = r.providers := by
  have hget : (c.set k v ttl t0).get k t =
      (some (v, TierName.fast), c.set k v ttl t0) := by
    have hl : lookupFresh (c.set k v ttl t0).fast k t =
        some (⟨v, t0, ttl⟩ : CacheEntry) := by
      apply lookupFresh_cons_self
      simp [CacheEntry.fresh, hfresh]
    exact get_fast_hit _ k t _ hl
  refine ⟨by rw [hget], ?_, ?_⟩ <;> simp [DataSourceRouter.search, hc, hget]

/-- C5 (witness): the round trip applied to a concrete entry written
at time 0 with TTL 1 and read back at time 1. -/
theorem cache_set_get_roundtrip_witness :
    (0 : ℚ) ≤ 1 ∧
    (((emptyCache.set ("q") [productB] 1 0).get ("q") 1).1 = some ([productB], TierName.fast) ∧
      (router1Cached.search ("q") 1 1).1 = [productB] ∧
      (router1Cached.search ("q") 1 1).2.providers = router1Cached.providers) :=
  ⟨by norm_num,
    cache_set_get_roundtrip emptyCache router1Cached ("q") [productB] 1 0 1 1
      (by norm_num) (by norm_num) rfl⟩

/-- All providers failing makes `tryProviders` return no result. -/
theorem tryProviders_all_fail :
    ∀ (provs : List (Provider × ProviderStats)) (q : String),
      (∀ pr ∈ provs, pr.1 q = none) → (tryProviders provs q).1 = none
  | [], _, _ => rfl
  | (p, st) :: rest, q, h => by
    have hp : p q = none := h (p, st) (List.mem_cons_self _ _)
    simp only [tryProviders, hp]
    exact tryProviders_all_fail rest q (fun pr hpr => h pr (List.mem_cons_of_mem _ hpr))

/-- C6: when the cache misses and every remote provider fails, search
still returns a result rather than raising: the last-known-good cached
value if one is present even if stale, otherwise the static fallback
dataset. -/
theorem router_all_fail_fallback (r : DataSourceRouter) (q : String) (ttl now : ℚ)
    (hmiss : (r.cache.get q now).1 = none)
    (hfail : ∀ pr ∈ r.providers, pr.1 q = none) :
    (r.search q ttl now).1 =
      (((r.cache.get q now).2.staleLookup q).getD r.fallback) := by
  have ht : (tryProviders r.providers q).1 = none :=
    tryProviders_all_fail r.providers q hfail
  rcases hst : ((r.cache.get q now).2.staleLookup q) with _ | v <;>
    simp [DataSourceRouter.search, hmiss, ht, hst]

/-- C6 (witness): the fallback applied to a router with an empty cache
and a single always-failing provider: search returns the static
fallback dataset. -/
theorem router_all_fail_fallback_witness :
    (router1.cache.get ("q") 0).1 = none ∧
    (router1.search ("q") 1 0).1 =
      (((router1.cache.get ("q") 0).2.staleLookup ("q")).getD router1.fallback) ∧
    (router1.search ("q") 1 0).1 = [productA] :=
  ⟨by decide, router_all_fail_fallback router1 ("q") 1 0 (by decide) (by decide),
    by decide⟩

/-- C7: `get` checks the fast, persistent, and backup tiers in that
order — a fresh fast entry is served from the fast tier with the cache
unchanged; on a fast miss a persistent hit is served and promoted into
the fast tier; on a fast and persistent miss a backup hit is served
and promoted into both faster tiers — and consequently a repeated
`get` of a key just served (from any tier) is served from the fast
tier, so repeated access converges to the fastest available tier. -/
theorem tiered_get_order (c : TieredCache) (k : String) (now : ℚ) :
    (∀ e, lookupFresh c.fast k now = some e →
      c.get k now = (some (e.value, TierName.fast), c)) ∧
    (∀ e, lookupFresh c.fast k now = none →
      lookupFresh c.persistent k now = some e →
      (c.get k now).1 = some (e.value, TierName.persistent) ∧
      lookupFresh (c.get k now).2.fast k now = some e) ∧
    (∀ e, lookupFresh c.fast k now = none →
      lookupFresh c.persistent k now = none →
      lookupFresh c.backup k now = some e →
      (c.get k now).1 = some (e.value, TierName.backup) ∧
      lookupFresh (c.get k now).2.fast k now = some e ∧
      lookupFresh (c.get k now).2.persistent k now = some e) ∧
    (∀ v tn, (c.get k now).1 = some (v, tn) →
      ((c.get k now).2.get k now).1 = some (v, TierName.fast)) := by
  refine ⟨?_, ?_, ?_, ?_⟩
  · intro e h
    exact get_fast_hit c k now e h
  · intro e h1 h2
    rw [get_persistent_hit c k now e h1 h2]
    exact ⟨rfl, lookupFresh_cons_self e c.fast k now (lookupFresh_fresh h2)⟩
  · intro e h1 h2 h3
    rw [get_backup_hit c k now e h1 h2 h3]
    exact ⟨rfl, lookupFresh_cons_self e c.fast k now (lookupFresh_fresh h3),
      lookupFresh_cons_self e c.persistent k now (lookupFresh_fresh h3)⟩
  · intro v tn h
    rcases h1 : lookupFresh c.fast k now with _ | e1
    · rcases h2 : lookupFresh c.persistent k now with _ | e2
      · rcases h3 : lookupFresh c.backup k now with _ | e3
        · simp [TieredCache.get, h1, h2, h3] at h
        · have hf := lookupFresh_fresh h3
          have hc1 := lookupFresh_cons_self e3 c.fast k now hf
          simp [TieredCache.get, h1, h2, h3] at h
          obtain ⟨hv, htn⟩ := h
          subst hv
          simp [TieredCache.get, h1, h2, h3, hc1]
      · have hf := lookupFresh_fresh h2
        have hc1 := lookupFresh_cons_self e2 c.fast k now hf
        simp [TieredCache.get, h1, h2] at h
        obtain ⟨hv, htn⟩ := h
        subst hv
        simp [TieredCache.get, h1, h2, hc1]
    · simp [TieredCache.get, h1] at h
      obtain ⟨hv, htn⟩ := h
      subst hv
      simp [TieredCache.get, h1]

/-- C7 (witness): the convergence part applied to a cache whose only
entry sits in the backup tier — the first `get` serves it from the
backup tier and the second `get` serves it from the fast tier. -/
theorem tiered_get_order_witness :
    (backupOnlyCache.get ("q") 0).1 = some ([productA], TierName.backup) ∧
    ((backupOnlyCache.get ("q") 0).2.get ("q") 0).1 = some ([productA], TierName.fast) := by
  have h : (backupOnlyCache.get ("q") 0).1 = some ([productA], TierName.backup) := by
    norm_num [backupOnlyCache, TieredCache.get, lookupFresh, List.lookup, CacheEntry.fresh]
  exact ⟨h, (tiered_get_order backupOnlyCache ("q") 0).2.2.2 [productA] TierName.backup h⟩

/-- Pointwise effect of a provider cascade on the stats list: the
providers attempted on this query (the failing prefix and the first
success) each have their counters bumped according to their outcome,
and the providers after the first success are untouched. -/
theorem tryProviders_stats :
    ∀ (provs : List (Provider × ProviderStats)) (q : String) (i : Nat),
      ((tryProviders provs q).2)[i]? =
        (provs[i]?).map (fun pr =>
          if i < attemptedCount provs q then
            (pr.1, if (pr.1 q).isSome then pr.2.bumpSuccess else pr.2.bumpFailure)
          else pr)
  | [], q, i => by simp [tryProviders]
  | (p, st) :: rest, q, 0 => by
    rcases hp : p q with _ | v
    · simp [tryProviders, hp, attemptedCount]
    · simp [tryProviders, hp, attemptedCount]
  | (p, st) :: rest, q, i + 1 => by
    rcases hp : p q with _ | v
    · have ih := tryProviders_stats rest q i
      have hcond : (i + 1 < 1 + attemptedCount rest q) ↔ (i < attemptedCount rest q) := by
        omega
      simp [tryProviders, hp, attemptedCount, hcond, ih]
    · have hcond : ¬ (i + 1 < attemptedCount ((p, st) :: rest) q) := by
        simp [attemptedCount, hp]
      simp [tryProviders, hp, hcond]

/-- C8: every provider attempt made by a search increments that
provider's `SourceCallStats` counters regardless of outcome (failing
attempts bump the failure counter, the succeeding attempt bumps the
success counter, unattempted providers are untouched); in particular,
on a cache miss with a failing primary and a succeeding secondary,
search returns the secondary's results, bumps the primary's failure
count, and bumps the secondary's success count. -/
theorem provider_stats_increment :
    (∀ (provs : List (Provider × ProviderStats)) (q : String) (i : Nat),
      ((tryProviders provs q).2)[i]? =
        (provs[i]?).map (fun pr =>
          if i < attemptedCount provs q then
            (pr.1, if (pr.1 q).isSome then pr.2.bumpSuccess else pr.2.bumpFailure)
          else pr)) ∧
    (∀ (r : DataSourceRouter) (q : String) (ttl now : ℚ) (p1 p2 : Provider)
      (st1 st2 : ProviderStats) (rest : List (Provider × ProviderStats))
      (v : List Product),
      r.providers = (p1, st1) :: (p2, st2) :: rest →
      (r.cache.get q now).1 = none →
      p1 q = none → p2 q = some v →
      (r.search q ttl now).1 = v ∧
      (r.search q ttl now).2.providers =
        (p1, st1.bumpFailure) :: (p2, st2.bumpSuccess) :: rest) := by
  refine ⟨tryProviders_stats, ?_⟩
  intro r q ttl now p1 p2 st1 st2 rest v hprov hmiss hp1 hp2
  constructor <;> simp [DataSourceRouter.search, hmiss, hprov, tryProviders, hp1, hp2]

/-- C8 (witness): the scenario applied to a concrete router whose
primary provider fails and whose secondary succeeds. -/
theorem provider_stats_increment_witness :
    failProvider ("q") = none ∧
    ((router2.search ("q") 1 0).1 = [productB] ∧
      (router2.search ("q") 1 0).2.providers =
        (failProvider, ProviderStats.bumpFailure ⟨0, 0, 0⟩) ::
          (okProvider, ProviderStats.bumpSuccess ⟨0, 0, 0⟩) :: []) :=
  ⟨rfl,
    provider_stats_increment.2 router2 ("q") 1 0 failProvider okProvider
      ⟨0, 0, 0⟩ ⟨0, 0, 0⟩ [] [productB] rfl (by decide) rfl rfl⟩
